import Mathlib

/-
Verification of the R10FieldMaps transform pipeline (src/r10_field_maps.py).

The script reads a CSV of surveyed GPS points, queries the NOAA geoid18
calculator once per row (HTTP GET returning an HTML page), parses the geoid
undulation N out of a preformatted text block, computes the orthometric
height H = h - N, and writes the augmented rows to a new CSV.

Embedding choices:
* Python floats are modelled as exact rationals (ℚ); `float(s)` becomes
  `parseFloat`, an Option-valued decimal parser, and `f-string` two-decimal
  formatting becomes `formatFixed2` (round to the nearest hundredth).
* The network is an oracle `fetch : String → String` mapping a request URL
  to the HTML body of the response; `requests.get` becomes an application of
  the oracle to the URL the script builds.
* Exceptions (IndexError, ValueError, TypeError, AttributeError) are
  modelled by Option: a Python statement that would raise becomes `none`,
  and `none` propagates to the caller, matching uncaught propagation.
* `csv.DictReader` rows become a header list plus a value list; `row.get`
  becomes `dictGet`, which returns `none` both for an absent column and for
  a row too short to fill the column (Python's None in both cases).
-/

namespace R10FieldMaps

/-- Python whitespace characters recognised by `str.split()` and by the
stripping that `float()` performs on its argument. -/
def pyWs (c : Char) : Bool :=
  c = ' ' || c = '\t' || c = '\n' || c = '\r' || c = Char.ofNat 11 || c = Char.ofNat 12

/-- Decimal digit test. -/
def isDigit (c : Char) : Bool :=
  '0' ≤ c && c ≤ '9'

/-- Strip leading and trailing Python whitespace, as `float()` does. -/
def stripWs (s : List Char) : List Char :=
  ((s.dropWhile pyWs).reverse.dropWhile pyWs).reverse

/-- Consume a maximal run of decimal digits, accumulating their value `v`
and their count `k`; returns the value, the count and the rest. -/
def takeDigits : List Char → Nat → Nat → Nat × Nat × List Char
  | [], v, k => (v, k, [])
  | c :: cs, v, k =>
    if isDigit c then takeDigits cs (10 * v + (c.toNat - '0'.toNat)) (k + 1)
    else (v, k, c :: cs)

/-- Exponent tail of a float literal: digits after `e`/`E` and an optional
sign already consumed; `sgn = true` means a non-negative exponent. -/
def expTail (base : ℚ) (sgn : Bool) (s : List Char) : Option ℚ :=
  let (dv, dk, r) := takeDigits s 0 0
  if dk = 0 then none
  else if r ≠ [] then none
  else some (if sgn then base * 10 ^ dv else base / 10 ^ dv)

/-- Optional exponent part of a float literal. -/
def parseExp (base : ℚ) : List Char → Option ℚ
  | [] => some base
  | c :: r =>
    if c = 'e' || c = 'E' then
      match r with
      | '+' :: r2 => expTail base true r2
      | '-' :: r2 => expTail base false r2
      | _ => expTail base true r
    else none

/-- Unsigned decimal core of a float literal: digits, optional fraction,
optional exponent. At least one digit must appear around the point. -/
def parseUnsigned (s : List Char) : Option ℚ :=
  let (iv, ik, r1) := takeDigits s 0 0
  match r1 with
  | '.' :: r2 =>
    let (fv, fk, r3) := takeDigits r2 0 0
    if ik + fk = 0 then none
    else parseExp ((iv : ℚ) + (fv : ℚ) / 10 ^ fk) r3
  | _ => if ik = 0 then none else parseExp (iv : ℚ) r1

/-- Model of Python `float(s)`: strip whitespace, optional sign, decimal
literal with optional fraction and exponent. Returns `none` where `float`
raises `ValueError`. -/
def parseFloat (s : List Char) : Option ℚ :=
  match stripWs s with
  | '+' :: r => parseUnsigned r
  | '-' :: r => (parseUnsigned r).map (fun q => -q)
  | t => parseUnsigned t

/-- Split a character list at every newline, keeping empty pieces, as
Python `str.split(chr(10))` does. The result is always nonempty. -/
def splitNl : List Char → List (List Char)
  | [] => [[]]
  | c :: cs =>
    if c = '\n' then [] :: splitNl cs
    else
      match splitNl cs with
      | [] => [[c]]
      | l :: ls => (c :: l) :: ls

/-- Split on runs of whitespace dropping empty pieces, as Python
`str.split()` with no argument does; `acc` holds the current token
reversed. -/
def splitWsAux : List Char → List Char → List (List Char)
  | [], acc => if acc = [] then [] else [acc.reverse]
  | c :: cs, acc =>
    if pyWs c then
      if acc = [] then splitWsAux cs []
      else acc.reverse :: splitWsAux cs []
    else splitWsAux cs (c :: acc)

/-- Python `str.split()` with no argument. -/
def splitWs (s : List Char) : List (List Char) :=
  splitWsAux s []

/-- Split a list around the first occurrence of the pattern `pat`,
returning the part before it and the part after it, or `none` when the
pattern does not occur. -/
def splitFirst (pat : List Char) : List Char → Option (List Char × List Char)
  | [] => if pat.isPrefixOf ([] : List Char) then some ([], []) else none
  | c :: cs =>
    if pat.isPrefixOf (c :: cs) then some ([], (c :: cs).drop pat.length)
    else
      match splitFirst pat cs with
      | some (pre, post) => some (c :: pre, post)
      | none => none

/-- Model of `BeautifulSoup(html).pre.string` on a page in the documented
response format: the text content of the first preformatted block, i.e. the
characters between the first occurrence of the opening tag and the next
closing tag. `none` models the `AttributeError` raised downstream when the
page has no such block. -/
def extractPre (html : List Char) : Option (List Char) :=
  match splitFirst "<pre>".toList html with
  | none => none
  | some (_, rest) =>
    match splitFirst "</pre>".toList rest with
    | none => none
    | some (content, _) => some content

/-- Python list indexing `l[i]` with negative-index wraparound; `none`
models `IndexError`. -/
def pyIdx {α : Type} (l : List α) (i : ℤ) : Option α :=
  if 0 ≤ i then l.get? i.toNat
  else if 0 ≤ i + l.length then l.get? (i + l.length).toNat
  else none

/-- Embedding of `parse_geoid18_response(html)` from src/r10_field_maps.py:
take the text of the first preformatted block, split it into lines, take
line index 3, split that line on whitespace, and convert its second-to-last
and last tokens to numbers N and e. Any failing step (no block, fewer than
four lines, fewer than two tokens, non-numeric token) raises in Python and
is `none` here. -/
def parse_geoid18_response (html : String) : Option (ℚ × ℚ) :=
  match extractPre html.toList with
  | none => none
  | some content =>
    match pyIdx (splitNl content) 3 with
    | none => none
    | some line3 =>
      let data := splitWs line3
      match pyIdx data (-2), pyIdx data (-1) with
      | some nTok, some eTok =>
        match parseFloat nTok, parseFloat eTok with
        | some n, some e => some (n, e)
        | _, _ => none
      | _, _ => none

/-- Rational rendered as a string, standing in for the f-string
interpolation of a Python float into the request URL. The exact spelling is
irrelevant to the claims; it only has to be a deterministic function of the
value. -/
def ratStr (q : ℚ) : String :=
  toString q.num ++ "/" ++ toString q.den

/-- The request URL built by `postprocess_geoid18`: the fixed NOAA geoid18
endpoint with the latitude and longitude interpolated and the fixed
`longitude_direction=2` (west) parameter. -/
def geoidUrl (lat long : ℚ) : String :=
  "https://geodesy.noaa.gov/cgi-bin/GEOID_STUFF/geoid18_single.prl?PGM=intg&MODEL=14&LAT="
    ++ ratStr lat ++ "&LONG=" ++ ratStr long ++ "&longitude_direction=2"

/-- Embedding of `postprocess_geoid18(lat, long, h)`: GET the geoid18 page
for (lat, long) — here, apply the network oracle `fetch` to the URL —
parse the undulation N out of the response, and return the orthometric
height H = h - N. -/
def postprocess_geoid18 (fetch : String → String) (lat long h : ℚ) : Option ℚ :=
  match parse_geoid18_response (fetch (geoidUrl lat long)) with
  | none => none
  | some (n, _) => some (h - n)

/-- Value of key `key` in the dict `csv.DictReader` builds for a row:
the value at the last index where the header equals `key` (later duplicate
columns overwrite earlier ones in `dict(zip(...))`), `none` when the key is
absent or the row is too short to fill it (Python `None` in both cases). -/
def lastIdxOf (l : List String) (k : String) : Option Nat :=
  match l with
  | [] => none
  | a :: as =>
    match lastIdxOf as k with
    | some i => some (i + 1)
    | none => if a = k then some 0 else none

/-- Model of `row.get(key)` on a `csv.DictReader` row. -/
def dictGet (header vals : List String) (key : String) : Option String :=
  match lastIdxOf header key with
  | none => none
  | some i => vals.get? i

/-- Round a rational to the nearest integer, ties away from zero upward;
stands in for the rounding the `0.2f` float format performs. -/
def roundQ (q : ℚ) : ℤ :=
  ⌊q + 1 / 2⌋

/-- Two-digit zero-padded rendering of a natural number below 100. -/
def twoDigits (n : Nat) : String :=
  if n < 10 then "0" ++ toString n else toString n

/-- Model of the f-string format `0.2f` applied to a number: the value
rounded to the nearest hundredth and rendered with exactly two digits after
the decimal point. -/
def formatFixed2 (q : ℚ) : String :=
  let m := (roundQ (q * 100)).natAbs
  (if q < 0 then "-" else "") ++ toString (m / 100) ++ "." ++ twoDigits (m % 100)

/-- The fixed rod height subtracted from the measured value, `rh = 1.55`
in `transform`. -/
def rh : ℚ := 1.55

/-- One output row of orthometric_R10Points.csv: ten pass-through fields
exactly as `row.get` returned them, the corrected measured height as the
exact number `transform` computes, and the calculated height as the
two-decimal string `transform` formats. -/
structure OutRow where
  name : Option String
  orthoMeasured : Option String
  receiverName : Option String
  horizontalAccuracy : Option String
  verticalAccuracy : Option String
  latitude : Option String
  longitude : Option String
  elevation : Option String
  numberSatellites : Option String
  fixTime : Option String
  measuredOrtho : ℚ
  calculatedOrtho : String
deriving DecidableEq, Repr

/-- Body of the per-row loop in `transform`: parse Latitude, Longitude and
Elevation as floats (taking the absolute value of the longitude), call
`postprocess_geoid18`, compute the corrected measured height, and build the
output row. Any failure is `none`, modelling an uncaught exception. -/
def processRow (fetch : String → String) (header vals : List String) : Option OutRow :=
  (dictGet header vals "Latitude").bind fun latS =>
  (parseFloat latS.toList).bind fun lat =>
  (dictGet header vals "Longitude").bind fun longS =>
  (parseFloat longS.toList).bind fun long0 =>
  (dictGet header vals "Elevation").bind fun elevS =>
  (parseFloat elevS.toList).bind fun elev =>
  (postprocess_geoid18 fetch lat |long0| elev).bind fun calculatedOrtho =>
  (dictGet header vals "Ortho_Measured").bind fun omS =>
  (parseFloat omS.toList).map fun om =>
  ⟨dictGet header vals "Name", dictGet header vals "Ortho_Measured",
    dictGet header vals "ReceiverName", dictGet header vals "HorizontalAccuracy",
    dictGet header vals "VerticalAccuracy", dictGet header vals "Latitude",
    dictGet header vals "Longitude", dictGet header vals "Elevation",
    dictGet header vals "NumberSatellites", dictGet header vals "FixTime",
    om - rh, formatFixed2 calculatedOrtho⟩

/-- The `fieldnames` list `transform` passes to `csv.DictWriter`: the
header row of the output file. -/
def outFieldnames : List String :=
  ["Name", "Ortho_Measured", "ReceiverName", "HorizontalAccuracy", "VerticalAccuracy",
    "Latitude", "Longitude", "Elevation", "NumberSatellites", "FixTime", "Measured_Ortho",
    "Calculated_Ortho"]

/-- The ten column names of the input file R10Points.csv that `transform`
reads through `row.get`. -/
def inputHeader : List String :=
  ["Name", "Ortho_Measured", "ReceiverName", "HorizontalAccuracy", "VerticalAccuracy",
    "Latitude", "Longitude", "Elevation", "NumberSatellites", "FixTime"]

/-- Embedding of the read-transform-write loop of `transform`: process the
input rows in order; the first row that raises aborts the whole run
(`none`), otherwise the output data rows are returned in order. -/
def transform (fetch : String → String) (header : List String) :
    List (List String) → Option (List OutRow)
  | [] => some []
  | r :: rs =>
    match processRow fetch header r with
    | none => none
    | some o => (transform fetch header rs).map fun os => o :: os

/-! Concrete fixtures: an HTML response in the documented geoid18 format
(undulation -24.38, error 0.02) and input rows in the R10Points.csv
schema. Used to instantiate the theorems below on closed inputs. -/

/-- HTML fixture in the documented geoid18 response format. -/
def fixtureHtml : String :=
  "<html><body><pre>GEOID18\nStation\nLat Long N err\n 40.05 105.28 -24.38 0.02\n</pre></body></html>"

/-- Text content of the preformatted block of `fixtureHtml`. -/
def fixtureContent : List Char :=
  "GEOID18\nStation\nLat Long N err\n 40.05 105.28 -24.38 0.02\n".toList

/-- Line index 3 of the preformatted block of `fixtureHtml`. -/
def fixtureLine3 : List Char :=
  " 40.05 105.28 -24.38 0.02".toList

/-- Network oracle answering every request with `fixtureHtml`. -/
def exFetch : String → String := fun _ => fixtureHtml

/-- A well-formed input row (ellipsoid height 25.62, so H = 50.00). -/
def exVals : List String :=
  ["P1", "100.00", "R10", "0.01", "0.02", "40.05", "-105.28", "25.62", "12", "2021-01-01"]

/-- A second well-formed input row differing from `exVals`. -/
def exVals2 : List String :=
  ["P2", "101.00", "R10", "0.01", "0.02", "40.05", "-105.28", "25.62", "12", "2021-01-01"]

/-- A well-formed input row whose computed height 50.001 has more than two
decimals, so the formatted output drops precision. -/
def exValsR : List String :=
  ["P4", "100.00", "R10", "0.01", "0.02", "40.05", "-105.28", "25.621", "12", "2021-01-01"]

/-- The output row `transform` produces for `exVals` under `exFetch`. -/
def exOutRow : OutRow :=
  ⟨some "P1", some "100.00", some "R10", some "0.01", some "0.02", some "40.05",
    some "-105.28", some "25.62", some "12", some "2021-01-01", 98.45, "50.00"⟩

/-- The output row `transform` produces for `exVals2` under `exFetch`. -/
def exOutRow2 : OutRow :=
  ⟨some "P2", some "101.00", some "R10", some "0.01", some "0.02", some "40.05",
    some "-105.28", some "25.62", some "12", some "2021-01-01", 99.45, "50.00"⟩

/-- The output row `transform` produces for `exValsR` under `exFetch`. -/
def exOutRowR : OutRow :=
  ⟨some "P4", some "100.00", some "R10", some "0.01", some "0.02", some "40.05",
    some "-105.28", some "25.621", some "12", some "2021-01-01", 98.45, "50.00"⟩

/-- Inversion of a successful `processRow`: every intermediate lookup and
parse succeeded and the output row is the record the loop body builds. -/
theorem processRow_inv (fetch : String → String) (header vals : List String) (out : OutRow)
    (h : processRow fetch header vals = some out) :
    ∃ latS lat longS long0 elevS elev co omS om,
      dictGet header vals "Latitude" = some latS ∧
      parseFloat latS.toList = some lat ∧
      dictGet header vals "Longitude" = some longS ∧
      parseFloat longS.toList = some long0 ∧
      dictGet header vals "Elevation" = some elevS ∧
      parseFloat elevS.toList = some elev ∧
      postprocess_geoid18 fetch lat |long0| elev = some co ∧
      dictGet header vals "Ortho_Measured" = some omS ∧
      parseFloat omS.toList = some om ∧
      out = ⟨dictGet header vals "Name", dictGet header vals "Ortho_Measured",
        dictGet header vals "ReceiverName", dictGet header vals "HorizontalAccuracy",
        dictGet header vals "VerticalAccuracy", dictGet header vals "Latitude",
        dictGet header vals "Longitude", dictGet header vals "Elevation",
        dictGet header vals "NumberSatellites", dictGet header vals "FixTime",
        om - rh, formatFixed2 co⟩ := by
  unfold processRow at h
  simp only [Option.bind_eq_some, Option.map_eq_some'] at h
  obtain ⟨latS, hlatS, lat, hlat, longS, hlongS, long0, hlong, elevS, helevS, elev, helev,
    co, hco, omS, homS, om, hom, hout⟩ := h
  exact ⟨latS, lat, longS, long0, elevS, elev, co, omS, om, hlatS, hlat, hlongS, hlong,
    helevS, helev, hco, homS, hom, hout.symm⟩

/-- A successful `transform` produces one output row per input row. -/
theorem transform_length (fetch : String → String) (header : List String)
    (rows : List (List String)) (out : List OutRow)
    (h : transform fetch header rows = some out) :
    out.length = rows.length := by
  induction rows generalizing out with
  | nil =>
    unfold transform at h
    injection h with h
    subst h
    rfl
  | cons r rs ih =>
    unfold transform at h
    cases hp : processRow fetch header r with
    | none => rw [hp] at h; cases h
    | some o =>
      rw [hp] at h
      simp only [Option.map_eq_some'] at h
      obtain ⟨os, hos, rfl⟩ := h
      simp [ih os hos]

/-- Each output row of a successful `transform` is obtained by applying
`processRow` to the input row at the same index. -/
theorem transform_get?_eq (fetch : String → String) (header : List String)
    (rows : List (List String)) (out : List OutRow)
    (h : transform fetch header rows = some out) (i : Nat) :
    out.get? i = (rows.get? i).bind (processRow fetch header) := by
  induction rows generalizing out i with
  | nil =>
    unfold transform at h
    injection h with h
    subst h
    cases i <;> simp
  | cons r rs ih =>
    unfold transform at h
    cases hp : processRow fetch header r with
    | none => rw [hp] at h; cases h
    | some o =>
      rw [hp] at h
      simp only [Option.map_eq_some'] at h
      obtain ⟨os, hos, rfl⟩ := h
      cases i with
      | zero => simp [hp]
      | succ n => simpa using ih os hos n

/-- C1: for every latitude, longitude and ellipsoid height h, when the
geoid18 service response for that latitude/longitude parses to the
undulation N (and error e), `postprocess_geoid18` returns exactly h - N. -/
theorem postprocess_ortho_exact (fetch : String → String) (lat long h n e : ℚ)
    (hp : parse_geoid18_response (fetch (geoidUrl lat long)) = some (n, e)) :
    postprocess_geoid18 fetch lat long h = some (h - n) := by
  unfold postprocess_geoid18
  rw [hp]

/-- Witness for C1 on the concrete fixture: N = -24.38, h = 25.62, so
H = 25.62 - (-24.38) = 50. -/
theorem postprocess_ortho_exact_witness :
    postprocess_geoid18 exFetch 40.05 105.28 25.62 = some (25.62 - (-24.38)) :=
  postprocess_ortho_exact exFetch 40.05 105.28 25.62 (-24.38) 0.02
    (by with_unfolding_all rfl)

/-- C2: for every HTML page in the documented response format — a
preformatted block whose line of index 3 exists and whose last two
whitespace-separated tokens parse as numbers — `parse_geoid18_response`
returns the pair (N, e) of the second-to-last and last tokens of that
line, each converted to a number. -/
theorem parse_response_tokens (html : String) (content line3 : List Char) (n e : ℚ)
    (hpre : extractPre html.toList = some content)
    (hline : pyIdx (splitNl content) 3 = some line3)
    (hn : (pyIdx (splitWs line3) (-2)).bind parseFloat = some n)
    (he : (pyIdx (splitWs line3) (-1)).bind parseFloat = some e) :
    parse_geoid18_response html = some (n, e) := by
  unfold parse_geoid18_response
  simp only [Option.bind_eq_some] at hn he
  obtain ⟨nTok, hnTok, hnVal⟩ := hn
  obtain ⟨eTok, heTok, heVal⟩ := he
  rw [hpre]
  dsimp only
  rw [hline]
  dsimp only
  rw [hnTok, heTok]
  dsimp only
  rw [hnVal, heVal]

/-- Witness for C2 on the concrete fixture page: the fourth line of the
block is " 40.05 105.28 -24.38 0.02", so N = -24.38 and e = 0.02. -/
theorem parse_response_tokens_witness :
    parse_geoid18_response fixtureHtml = some (-24.38, 0.02) :=
  parse_response_tokens fixtureHtml fixtureContent fixtureLine3 (-24.38) 0.02
    (by with_unfolding_all rfl) (by with_unfolding_all rfl)
    (by with_unfolding_all rfl) (by with_unfolding_all rfl)

/-- C5: `transform` aborts with an uncaught failure exactly when some input
row fails (missing or non-numeric field, or a response that does not parse);
no failure is converted into a recoverable per-row result. -/
theorem transform_none_iff (fetch : String → String) (header : List String)
    (rows : List (List String)) :
    transform fetch header rows = none ↔
      ∃ r ∈ rows, processRow fetch header r = none := by
  induction rows with
  | nil => simp [transform]
  | cons r rs ih =>
    unfold transform
    cases hp : processRow fetch header r with
    | none =>
      simp only [List.mem_cons]
      constructor
      · intro _
        exact ⟨r, Or.inl rfl, hp⟩
      · intro _
        trivial
    | some o =>
      simp only [Option.map_eq_none', ih, List.mem_cons]
      constructor
      · rintro ⟨x, hx, hfail⟩
        exact ⟨x, Or.inr hx, hfail⟩
      · rintro ⟨x, hx | hx, hfail⟩
        · subst hx
          rw [hp] at hfail
          cases hfail
        · exact ⟨x, hx, hfail⟩

/-- C7: `postprocess_geoid18` reads nothing but its three arguments and
the service response for its latitude/longitude: two runs whose network
oracles agree on the one URL it requests return the same orthometric
height, whatever the oracles do elsewhere. -/
theorem postprocess_deterministic (fetch₁ fetch₂ : String → String) (lat long h : ℚ)
    (hagree : fetch₁ (geoidUrl lat long) = fetch₂ (geoidUrl lat long)) :
    postprocess_geoid18 fetch₁ lat long h = postprocess_geoid18 fetch₂ lat long h := by
  unfold postprocess_geoid18
  rw [hagree]

/-- Witness for C7: the constant oracle versus an oracle that differs on
the empty URL agree on the one requested URL, and the results coincide. -/
theorem postprocess_deterministic_witness :
    postprocess_geoid18 exFetch 40.05 105.28 25.62 =
      postprocess_geoid18 (fun u => if u = "" then "" else fixtureHtml) 40.05 105.28 25.62 :=
  postprocess_deterministic exFetch (fun u => if u = "" then "" else fixtureHtml)
    40.05 105.28 25.62 (by with_unfolding_all rfl)

/-- C3 counterexample: the output header is the fixed twelve-name
`fieldnames` list, not a function of the input header. On an input whose
header carries an extra column the run still succeeds, yet the output
columns are not the input columns followed by the two derived ones. -/
theorem transform_columns_counterexample :
    (transform exFetch (inputHeader ++ ["Extra"]) [exVals ++ ["x"]]).isSome = true ∧
    outFieldnames ≠ (inputHeader ++ ["Extra"]) ++ ["Measured_Ortho", "Calculated_Ortho"] := by
  constructor
  · with_unfolding_all rfl
  · decide

/-- C3 amended: on an input whose header is exactly the ten documented
columns in their documented order, a successful `transform` writes one
output row per input row, and the output columns are the input columns in
order followed by exactly Measured_Ortho and Calculated_Ortho. -/
theorem transform_shape (fetch : String → String) (rows : List (List String))
    (out : List OutRow)
    (hs : transform fetch inputHeader rows = some out) :
    out.length = rows.length ∧
    outFieldnames = inputHeader ++ ["Measured_Ortho", "Calculated_Ortho"] :=
  ⟨transform_length fetch inputHeader rows out hs, by decide⟩

/-- Witness for the amended C3 on a one-row input. -/
theorem transform_shape_witness :
    transform exFetch inputHeader [exVals] = some [exOutRow] ∧
    ([exOutRow] : List OutRow).length = [exVals].length ∧
    outFieldnames = inputHeader ++ ["Measured_Ortho", "Calculated_Ortho"] :=
  ⟨by with_unfolding_all rfl,
   transform_shape exFetch [exVals] [exOutRow] (by with_unfolding_all rfl)⟩

/-- C4: the derived Measured_Ortho value of every processed row is the
row's Ortho_Measured field, converted to a number, minus the fixed rod
height 1.55. -/
theorem measured_ortho_sub_rod (fetch : String → String) (header vals : List String)
    (out : OutRow) (omS : String) (om : ℚ)
    (h : processRow fetch header vals = some out)
    (h1 : dictGet header vals "Ortho_Measured" = some omS)
    (h2 : parseFloat omS.toList = some om) :
    out.measuredOrtho = om - 1.55 := by
  obtain ⟨latS, lat, longS, long0, elevS, elev, co, omS', om', _, _, _, _, _, _, _,
    homS', hom', hout⟩ := processRow_inv fetch header vals out h
  have hs : omS' = omS := Option.some.inj (homS'.symm.trans h1)
  subst hs
  have hv : om' = om := Option.some.inj (hom'.symm.trans h2)
  subst hv
  subst hout
  rfl

/-- Witness for C4: Ortho_Measured "100.00" gives 100 - 1.55 = 98.45. -/
theorem measured_ortho_sub_rod_witness :
    processRow exFetch inputHeader exVals = some exOutRow ∧
    exOutRow.measuredOrtho = 100.00 - 1.55 :=
  ⟨by with_unfolding_all rfl,
   measured_ortho_sub_rod exFetch inputHeader exVals exOutRow "100.00" 100.00
     (by with_unfolding_all rfl) (by with_unfolding_all rfl) (by with_unfolding_all rfl)⟩

/-- C6: rows are processed independently. In two successful runs over the
same header and the same network oracle whose inputs agree at row index i,
the output rows at index i agree, whatever the other rows are. -/
theorem rows_independent (fetch : String → String) (header : List String)
    (rows₁ rows₂ : List (List String)) (i : Nat) (out₁ out₂ : List OutRow)
    (hrow : rows₁.get? i = rows₂.get? i)
    (h₁ : transform fetch header rows₁ = some out₁)
    (h₂ : transform fetch header rows₂ = some out₂) :
    out₁.get? i = out₂.get? i := by
  rw [transform_get?_eq fetch header rows₁ out₁ h₁ i,
    transform_get?_eq fetch header rows₂ out₂ h₂ i, hrow]

/-- Witness for C6: changing the second row of a two-row input does not
change the first output row. -/
theorem rows_independent_witness :
    transform exFetch inputHeader [exVals, exVals2] = some [exOutRow, exOutRow2] ∧
    transform exFetch inputHeader [exVals] = some [exOutRow] ∧
    ([exOutRow, exOutRow2] : List OutRow).get? 0 = ([exOutRow] : List OutRow).get? 0 :=
  ⟨by with_unfolding_all rfl, by with_unfolding_all rfl,
   rows_independent exFetch inputHeader [exVals, exVals2] [exVals] 0 _ _ rfl
     (by with_unfolding_all rfl) (by with_unfolding_all rfl)⟩

/-- C8: the service is queried with the absolute value of the row's
longitude — the calculated height comes from `postprocess_geoid18` at
`|long0|` — over a URL carrying the fixed `longitude_direction=2` (west)
parameter, while the Longitude written to the output row is the original,
possibly negative, input string unchanged. -/
theorem longitude_abs_query (fetch : String → String) (header vals : List String)
    (out : OutRow) (latS longS elevS : String) (lat long0 elev H : ℚ)
    (h : processRow fetch header vals = some out)
    (hlatS : dictGet header vals "Latitude" = some latS)
    (hlat : parseFloat latS.toList = some lat)
    (hlongS : dictGet header vals "Longitude" = some longS)
    (hlong : parseFloat longS.toList = some long0)
    (helevS : dictGet header vals "Elevation" = some elevS)
    (helev : parseFloat elevS.toList = some elev)
    (hpost : postprocess_geoid18 fetch lat |long0| elev = some H) :
    out.longitude = some longS ∧ out.calculatedOrtho = formatFixed2 H ∧
    geoidUrl lat |long0| =
      ("https://geodesy.noaa.gov/cgi-bin/GEOID_STUFF/geoid18_single.prl?PGM=intg&MODEL=14&LAT="
        ++ ratStr lat ++ "&LONG=" ++ ratStr |long0|) ++ "&longitude_direction=2" := by
  obtain ⟨latS', lat', longS', long0', elevS', elev', co, omS', om', hlatS', hlat',
    hlongS', hlong', helevS', helev', hco, homS', hom', hout⟩ :=
    processRow_inv fetch header vals out h
  have e1 : latS' = latS := Option.some.inj (hlatS'.symm.trans hlatS)
  subst e1
  have e2 : lat' = lat := Option.some.inj (hlat'.symm.trans hlat)
  subst e2
  have e3 : longS' = longS := Option.some.inj (hlongS'.symm.trans hlongS)
  subst e3
  have e4 : long0' = long0 := Option.some.inj (hlong'.symm.trans hlong)
  subst e4
  have e5 : elevS' = elevS := Option.some.inj (helevS'.symm.trans helevS)
  subst e5
  have e6 : elev' = elev := Option.some.inj (helev'.symm.trans helev)
  subst e6
  have e7 : co = H := Option.some.inj (hco.symm.trans hpost)
  subst e7
  subst hout
  exact ⟨hlongS, rfl, rfl⟩

/-- Witness for C8: the input longitude string "-105.28" is written out
unchanged while the query used its absolute value 105.28. -/
theorem longitude_abs_query_witness :
    processRow exFetch inputHeader exVals = some exOutRow ∧
    exOutRow.longitude = some "-105.28" ∧
    exOutRow.calculatedOrtho = formatFixed2 50 ∧
    geoidUrl 40.05 |(-105.28 : ℚ)| =
      ("https://geodesy.noaa.gov/cgi-bin/GEOID_STUFF/geoid18_single.prl?PGM=intg&MODEL=14&LAT="
        ++ ratStr 40.05 ++ "&LONG=" ++ ratStr |(-105.28 : ℚ)|) ++ "&longitude_direction=2" :=
  ⟨by with_unfolding_all rfl,
   longitude_abs_query exFetch inputHeader exVals exOutRow "40.05" "-105.28" "25.62"
     40.05 (-105.28) 25.62 50
     (by with_unfolding_all rfl) (by with_unfolding_all rfl) (by with_unfolding_all rfl)
     (by with_unfolding_all rfl) (by with_unfolding_all rfl) (by with_unfolding_all rfl)
     (by with_unfolding_all rfl) (by with_unfolding_all rfl)⟩

/-- C9: the Calculated_Ortho cell of every processed row is the orthometric
height formatted to exactly two decimal places — the rounded string
`formatFixed2 H` — while the Measured_Ortho cell carries the exact computed
value om - rh with no formatting applied. -/
theorem calculated_two_decimals (fetch : String → String) (header vals : List String)
    (out : OutRow) (latS longS elevS omS : String) (lat long0 elev om H : ℚ)
    (h : processRow fetch header vals = some out)
    (hlatS : dictGet header vals "Latitude" = some latS)
    (hlat : parseFloat latS.toList = some lat)
    (hlongS : dictGet header vals "Longitude" = some longS)
    (hlong : parseFloat longS.toList = some long0)
    (helevS : dictGet header vals "Elevation" = some elevS)
    (helev : parseFloat elevS.toList = some elev)
    (hpost : postprocess_geoid18 fetch lat |long0| elev = some H)
    (homS : dictGet header vals "Ortho_Measured" = some omS)
    (hom : parseFloat omS.toList = some om) :
    out.calculatedOrtho = formatFixed2 H ∧ out.measuredOrtho = om - rh := by
  obtain ⟨latS', lat', longS', long0', elevS', elev', co, omS', om', hlatS', hlat',
    hlongS', hlong', helevS', helev', hco, homS', hom', hout⟩ :=
    processRow_inv fetch header vals out h
  have e1 : latS' = latS := Option.some.inj (hlatS'.symm.trans hlatS)
  subst e1
  have e2 : lat' = lat := Option.some.inj (hlat'.symm.trans hlat)
  subst e2
  have e3 : longS' = longS := Option.some.inj (hlongS'.symm.trans hlongS)
  subst e3
  have e4 : long0' = long0 := Option.some.inj (hlong'.symm.trans hlong)
  subst e4
  have e5 : elevS' = elevS := Option.some.inj (helevS'.symm.trans helevS)
  subst e5
  have e6 : elev' = elev := Option.some.inj (helev'.symm.trans helev)
  subst e6
  have e7 : co = H := Option.some.inj (hco.symm.trans hpost)
  subst e7
  have e8 : omS' = omS := Option.some.inj (homS'.symm.trans homS)
  subst e8
  have e9 : om' = om := Option.some.inj (hom'.symm.trans hom)
  subst e9
  subst hout
  exact ⟨rfl, rfl⟩

/-- Witness for C9: the computed height 50.001 is written as the rounded
string "50.00", visibly dropping precision, while Measured_Ortho keeps the
exact value. -/
theorem calculated_two_decimals_witness :
    processRow exFetch inputHeader exValsR = some exOutRowR ∧
    formatFixed2 50.001 = "50.00" ∧
    exOutRowR.calculatedOrtho = formatFixed2 50.001 ∧
    exOutRowR.measuredOrtho = 100.00 - rh :=
  ⟨by with_unfolding_all rfl, by with_unfolding_all rfl,
   calculated_two_decimals exFetch inputHeader exValsR exOutRowR "40.05" "-105.28" "25.621"
     "100.00" 40.05 (-105.28) 25.621 100.00 50.001
     (by with_unfolding_all rfl) (by with_unfolding_all rfl) (by with_unfolding_all rfl)
     (by with_unfolding_all rfl) (by with_unfolding_all rfl) (by with_unfolding_all rfl)
     (by with_unfolding_all rfl) (by with_unfolding_all rfl) (by with_unfolding_all rfl)
     (by with_unfolding_all rfl)⟩

/-- C10: the ten pass-through fields Name, Ortho_Measured, ReceiverName,
HorizontalAccuracy, VerticalAccuracy, Latitude, Longitude, Elevation,
NumberSatellites and FixTime are copied to the output row exactly as
`row.get` returned them; only the two derived columns carry computed
values. -/
theorem passthrough_unchanged (fetch : String → String) (header vals : List String)
    (out : OutRow) (h : processRow fetch header vals = some out) :
    out.name = dictGet header vals "Name" ∧
    out.orthoMeasured = dictGet header vals "Ortho_Measured" ∧
    out.receiverName = dictGet header vals "ReceiverName" ∧
    out.horizontalAccuracy = dictGet header vals "HorizontalAccuracy" ∧
    out.verticalAccuracy = dictGet header vals "VerticalAccuracy" ∧
    out.latitude = dictGet header vals "Latitude" ∧
    out.longitude = dictGet header vals "Longitude" ∧
    out.elevation = dictGet header vals "Elevation" ∧
    out.numberSatellites = dictGet header vals "NumberSatellites" ∧
    out.fixTime = dictGet header vals "FixTime" := by
  obtain ⟨_, _, _, _, _, _, _, _, _, _, _, _, _, _, _, _, _, _, hout⟩ :=
    processRow_inv fetch header vals out h
  subst hout
  exact ⟨rfl, rfl, rfl, rfl, rfl, rfl, rfl, rfl, rfl, rfl⟩

/-- Witness for C10 on the second fixture row. -/
theorem passthrough_unchanged_witness :
    processRow exFetch inputHeader exVals2 = some exOutRow2 ∧
    (exOutRow2.name = dictGet inputHeader exVals2 "Name" ∧
     exOutRow2.orthoMeasured = dictGet inputHeader exVals2 "Ortho_Measured" ∧
     exOutRow2.receiverName = dictGet inputHeader exVals2 "ReceiverName" ∧
     exOutRow2.horizontalAccuracy = dictGet inputHeader exVals2 "HorizontalAccuracy" ∧
     exOutRow2.verticalAccuracy = dictGet inputHeader exVals2 "VerticalAccuracy" ∧
     exOutRow2.latitude = dictGet inputHeader exVals2 "Latitude" ∧
     exOutRow2.longitude = dictGet inputHeader exVals2 "Longitude" ∧
     exOutRow2.elevation = dictGet inputHeader exVals2 "Elevation" ∧
     exOutRow2.numberSatellites = dictGet inputHeader exVals2 "NumberSatellites" ∧
     exOutRow2.fixTime = dictGet inputHeader exVals2 "FixTime") :=
  ⟨by with_unfolding_all rfl,
   passthrough_unchanged exFetch inputHeader exVals2 exOutRow2 (by with_unfolding_all rfl)⟩

end R10FieldMaps
